import Mathlib

/-!
Shallow embedding of the chunked-file-upload service
(src/services/fileUpload.js together with the FileUpload mongoose model),
restricted to a single upload session.  Statuses, counters and the staged
chunk files are modelled explicitly; the GridFS bucket is modelled as an
abstract blob slot.  Mongoose `findOneAndUpdate` calls do not run the
document middleware of the schema (the pre-validate status-transition table),
so the model applies those updates unconditionally, exactly as the driver
does.
-/

namespace FileUploadModel

/-- Session status enum of the FileUpload schema. -/
inductive Status
  | pending
  | uploading
  | processing
  | completed
  | failed
  | cancelled
deriving DecidableEq, Repr

/-- The claim-relevant fields of one FileUpload document. -/
structure Session where
  uploadedChunks : Nat
  totalChunks : Nat
  status : Status
  errorMessage : Option String
  retryCount : Nat
  blobRef : Option Nat
deriving DecidableEq, Repr

/-- State of the GridFS-side object for this session: no object, an open
(unfinished, unreadable) upload stream with the bytes written so far, or a
finalized readable object. -/
inductive BlobState
  | absent
  | writing (bytes : List Nat)
  | stored (bytes : List Nat)
deriving DecidableEq, Repr

/-- Whole-system state for one session: the document, the staged chunk
files (`chunk-i` under the session directory), the blob store object and
whether a merge callback has been scheduled via setImmediate and not yet
run. -/
structure SysState where
  session : Session
  staged : Nat → Option (List Nat)
  blob : BlobState
  mergePending : Bool

/-- Error taxonomy of src/utils/errors used by the claim-relevant paths. -/
inductive UErr
  | validationError (msg : String)
  | uploadError (msg : String)
  | fileSystemError (msg : String)
deriving DecidableEq, Repr

/-- Result payload of uploadChunk (the progress percentage virtual is
omitted: no claim mentions it). -/
structure ChunkResult where
  chunkIndex : Nat
  uploadedChunks : Nat
  totalChunks : Nat
deriving DecidableEq, Repr

/-- Result payload of completeUpload. -/
structure CompleteResult where
  message : String
  status : Status
deriving DecidableEq, Repr

/-- Fresh session as persisted by initializeUpload: schema defaults give
uploadedChunks 0 and status pending; no chunks staged, no blob, no merge
scheduled. -/
def openState (total : Nat) : SysState :=
  { session :=
      { uploadedChunks := 0
        totalChunks := total
        status := .pending
        errorMessage := none
        retryCount := 0
        blobRef := none }
    staged := fun _ => none
    blob := .absent
    mergePending := false }

/-- deleteChunk called from the catch block of uploadChunk: unlink the staged
file for this index (ENOENT ignored; a negative index never names an
existing file). -/
def eraseStaged (st : SysState) (idx : Int) : SysState :=
  if 0 ≤ idx then
    { st with staged := fun j => if j = idx.toNat then none else st.staged j }
  else st

/-- uploadChunk(fileId, chunkIndex, chunkData, totalChunks) of
src/services/fileUpload.js lines 99-181, for an existing session.
`totalChunks` is the request-header value, not the stored one.  Order of
checks follows the source: validateChunkIndex, status completed, status
cancelled, the (unreachable) repeated index bound, the isChunkUploaded
early return, saveChunk, then the conditional findOneAndUpdate that sets
uploadedChunks to chunkIndex+1 when the stored value is ≤ chunkIndex.
Every thrown error passes through the catch block, which deletes the
staged file for this index before rethrowing. -/
def uploadChunk (st : SysState) (chunkIndex : Int) (chunkData : List Nat)
    (totalChunks : Int) : Except UErr ChunkResult × SysState :=
  if chunkIndex < 0 ∨ totalChunks ≤ chunkIndex then
    (.error (.validationError "Invalid chunk index"), eraseStaged st chunkIndex)
  else if st.session.status = .completed then
    (.error (.uploadError "Upload already completed"), eraseStaged st chunkIndex)
  else if st.session.status = .cancelled then
    (.error (.uploadError "Upload has been cancelled"), eraseStaged st chunkIndex)
  else if totalChunks ≤ chunkIndex then
    (.error (.uploadError "Chunk index exceeds total chunks"), eraseStaged st chunkIndex)
  else
    let i := chunkIndex.toNat
    if i < st.session.uploadedChunks then
      (.ok ⟨i, st.session.uploadedChunks, st.session.totalChunks⟩, st)
    else
      let st₁ : SysState :=
        { st with staged := fun j => if j = i then some chunkData else st.staged j }
      if st₁.session.uploadedChunks ≤ i then
        let s : Session :=
          { st₁.session with uploadedChunks := i + 1, status := .uploading }
        (.ok ⟨i, s.uploadedChunks, s.totalChunks⟩, { st₁ with session := s })
      else
        (.ok ⟨i, st₁.session.uploadedChunks, st₁.session.totalChunks⟩, st₁)

/-- verifyChunks: every chunk file 0..totalChunks-1 exists on disk. -/
def verifyChunks (st : SysState) : Bool :=
  (List.range st.session.totalChunks).all fun i => (st.staged i).isSome

/-- completeUpload(fileId) of lines 184-245, for an existing session:
already-completed short circuit, incomplete-count UploadError, physical
chunk verification, markAsProcessing (a findOneAndUpdate, so no
transition validation runs) and the setImmediate merge handoff. -/
def completeUpload (st : SysState) : Except UErr CompleteResult × SysState :=
  if st.session.status = .completed then
    (.ok ⟨"File already processed", .completed⟩, st)
  else if st.session.uploadedChunks ≠ st.session.totalChunks then
    (.error (.uploadError ("Incomplete upload: " ++
        toString st.session.uploadedChunks ++ "/" ++
        toString st.session.totalChunks ++ " chunks received")), st)
  else if verifyChunks st then
    (.ok ⟨"Upload completed, processing file...", .processing⟩,
      { st with session := { st.session with status := .processing },
                mergePending := true })
  else
    (.error (.uploadError "Some chunks are missing. Please re-upload."), st)

/-- cancelUpload(fileId) of lines 408-443: only a completed session may
not be cancelled; markAsCancelled is a findOneAndUpdate, so the
transition table of the schema is bypassed.  The background chunk cleanup is a
separate step. -/
def cancelUpload (st : SysState) : Except UErr String × SysState :=
  if st.session.status = .completed then
    (.error (.uploadError "Cannot cancel completed upload"), st)
  else
    (.ok "Upload cancelled successfully",
      { st with session := { st.session with status := .cancelled } })

/-- Environment choices for one mergeChunks run: whether fs.access on the
chunk directory fails, the first chunk index at which a read/stream error
occurs (if any), and whether the post-merge cleanupChunks throws. -/
structure MergeEnv where
  dirAccessFails : Bool
  failAt : Option Nat
  cleanupFails : Bool

/-- The sequential chunk-read loop of mergeChunks (lines 291-320), reading
`n` chunks starting at index `i`: fails with the offending index when the
environment injects an error there or the chunk file is missing, otherwise
returns the bytes streamed, in index order. -/
def mergeRead (staged : Nat → Option (List Nat)) (failAt : Option Nat) :
    Nat → Nat → Except Nat (List Nat)
  | _, 0 => .ok []
  | i, n + 1 =>
    if failAt = some i then .error i
    else
      match staged i with
      | none => .error i
      | some b =>
        match mergeRead staged failAt (i + 1) n with
        | .error j => .error j
        | .ok rest => .ok (b ++ rest)

/-- mergeChunks(fileId) of lines 248-373.  Returns the new state and
whether the function threw (the error is rethrown to the setImmediate
handler).  Already-completed sessions return immediately.  On a read or
stream error the upload stream is aborted (the partial object is
discarded) and the record is set to failed with the error message (no
retryCount change here).  On success the stream is finalized, the record
is marked completed with the blob id, and cleanupChunks runs; a cleanup
failure lands in the same catch block, where aborting the already
finished stream fails (logged) and the record is then set to failed.  The
size-mismatch check only logs, so it has no state effect. -/
def mergeChunks (st : SysState) (env : MergeEnv) : SysState × Bool :=
  if st.session.status = .completed then (st, false)
  else if env.dirAccessFails then
    let s : Session :=
      { st.session with status := .failed, errorMessage := some "Chunk directory not found" }
    ({ st with session := s }, true)
  else
    match mergeRead st.staged env.failAt 0 st.session.totalChunks with
    | .error i =>
      let s : Session :=
        { st.session with status := .failed, errorMessage := some ("Failed to read chunk " ++ toString i) }
      ({ st with blob := .absent, session := s }, true)
    | .ok bytes =>
      let sDone : Session :=
        { st.session with status := .completed, blobRef := some 0 }
      let stDone : SysState :=
        { st with blob := .stored bytes, session := sDone }
      if env.cleanupFails then
        let s : Session :=
          { sDone with status := .failed, errorMessage := some "Failed to cleanup chunks" }
        ({ stDone with session := s }, true)
      else
        ({ stDone with staged := fun _ => none }, false)

/-- The setImmediate callback scheduled by completeUpload (lines 215-231):
run mergeChunks; if it threw, findOneAndUpdate the record to failed with
the error message and increment retryCount by one.  Running the callback
consumes the pending-merge slot. -/
def runScheduledMerge (st : SysState) (env : MergeEnv) : SysState :=
  let r := mergeChunks st env
  let st₂ :=
    if r.2 then
      let s : Session :=
        { r.1.session with status := .failed, retryCount := r.1.session.retryCount + 1 }
      { r.1 with session := s }
    else r.1
  { st₂ with mergePending := false }

/-- One observable operation on a session: a chunk submission (any
arguments, error outcomes included, since the catch block mutates
staging), a completion request, a cancellation, a scheduled merge
callback firing, or the background cleanup of a chunks of a cancelled session. -/
inductive Step : SysState → SysState → Prop
  | submit (st : SysState) (i : Int) (d : List Nat) (h : Int) :
      Step st (uploadChunk st i d h).2
  | complete (st : SysState) : Step st (completeUpload st).2
  | cancel (st : SysState) : Step st (cancelUpload st).2
  | merge (st : SysState) (env : MergeEnv) :
      st.mergePending = true → Step st (runScheduledMerge st env)
  | cleanup (st : SysState) :
      st.session.status = .cancelled → Step st { st with staged := fun _ => none }

/-- States reachable from a fresh session with `total` declared chunks. -/
def Reachable (total : Nat) (s : SysState) : Prop :=
  Relation.ReflTransGen Step (openState total) s

/-- Ordered concatenation of the `n` byte sequences C i, C (i+1), ...,
C (i+n-1). -/
def concatFrom (C : Nat → List Nat) : Nat → Nat → List Nat
  | _, 0 => []
  | i, n + 1 => C i ++ concatFrom C (i + 1) n

/-- eraseStaged only touches the staged files. -/
theorem eraseStaged_session (st : SysState) (idx : Int) :
    (eraseStaged st idx).session = st.session := by
  unfold eraseStaged
  split <;> rfl

/-- eraseStaged leaves the blob and the pending-merge slot alone. -/
theorem eraseStaged_blob_mergePending (st : SysState) (idx : Int) :
    (eraseStaged st idx).blob = st.blob ∧
      (eraseStaged st idx).mergePending = st.mergePending := by
  unfold eraseStaged
  split <;> exact ⟨rfl, rfl⟩

/-- Case analysis on the session record after one uploadChunk call: either
the document is untouched, or the conditional update fired, in which case
the submitted index was validated (0 ≤ chunkIndex < header totalChunks),
the stored counter was at most the index, and the document now carries
counter chunkIndex+1 and status uploading. -/
theorem uploadChunk_session (st : SysState) (i : Int) (d : List Nat) (h : Int) :
    ((uploadChunk st i d h).2).session = st.session ∨
      (0 ≤ i ∧ i < h ∧ st.session.uploadedChunks ≤ i.toNat ∧
        ((uploadChunk st i d h).2).session =
          { st.session with uploadedChunks := i.toNat + 1, status := .uploading }) := by
  simp only [uploadChunk]
  split_ifs with h1 h2 h3 h4 h5 h6
  · exact .inl (eraseStaged_session st i)
  · exact .inl (eraseStaged_session st i)
  · exact .inl (eraseStaged_session st i)
  · exact .inl (eraseStaged_session st i)
  · exact .inl rfl
  · exact .inr ⟨by omega, by omega, h6, rfl⟩
  · exact .inl rfl

/-- uploadChunk never touches the blob object or the pending-merge slot. -/
theorem uploadChunk_blob_mergePending (st : SysState) (i : Int) (d : List Nat) (h : Int) :
    ((uploadChunk st i d h).2).blob = st.blob ∧
      ((uploadChunk st i d h).2).mergePending = st.mergePending := by
  simp only [uploadChunk]
  split_ifs <;>
    first
      | exact eraseStaged_blob_mergePending st i
      | exact ⟨rfl, rfl⟩

/-- Case analysis on completeUpload: either the state is unchanged (an
error or the idempotent short circuit), or the counter matched
totalChunks and the session moved to processing with a merge scheduled. -/
theorem completeUpload_cases (st : SysState) :
    (completeUpload st).2 = st ∨
      (st.session.uploadedChunks = st.session.totalChunks ∧
        (completeUpload st).2 =
          { st with session := { st.session with status := .processing },
                    mergePending := true }) := by
  simp only [completeUpload]
  split_ifs with h1 h2 h3
  · exact .inl rfl
  · exact .inl rfl
  · exact .inr ⟨by omega, rfl⟩
  · exact .inl rfl

/-- Case analysis on cancelUpload: unchanged on error, otherwise only the
status moves to cancelled. -/
theorem cancelUpload_cases (st : SysState) :
    (cancelUpload st).2 = st ∨
      (cancelUpload st).2 =
        { st with session := { st.session with status := .cancelled } } := by
  simp only [cancelUpload]
  split_ifs
  · exact .inl rfl
  · exact .inr rfl

/-- mergeChunks never changes the chunk counters of the document. -/
theorem mergeChunks_counters (st : SysState) (env : MergeEnv) :
    ((mergeChunks st env).1).session.uploadedChunks = st.session.uploadedChunks ∧
      ((mergeChunks st env).1).session.totalChunks = st.session.totalChunks := by
  simp only [mergeChunks]
  split_ifs <;> (try exact ⟨rfl, rfl⟩) <;> (split <;> exact ⟨rfl, rfl⟩)

/-- The scheduled merge callback never changes the chunk counters and
always clears the pending-merge slot. -/
theorem runScheduledMerge_counters (st : SysState) (env : MergeEnv) :
    (runScheduledMerge st env).session.uploadedChunks = st.session.uploadedChunks ∧
      (runScheduledMerge st env).session.totalChunks = st.session.totalChunks ∧
      (runScheduledMerge st env).mergePending = false := by
  have hm := mergeChunks_counters st env
  simp only [runScheduledMerge]
  split_ifs <;> exact ⟨hm.1, hm.2, by trivial⟩

/-- Any single operation leaves the uploadedChunks counter non-decreasing
and the stored totalChunks unchanged. -/
theorem step_counters {s t : SysState} (hst : Step s t) :
    s.session.uploadedChunks ≤ t.session.uploadedChunks ∧
      t.session.totalChunks = s.session.totalChunks := by
  cases hst with
  | submit i d h =>
    rcases uploadChunk_session s i d h with he | ⟨_, _, hle, he⟩ <;> rw [he]
    · exact ⟨le_refl _, rfl⟩
    · refine ⟨?_, rfl⟩
      show s.session.uploadedChunks ≤ i.toNat + 1
      omega
  | complete =>
    rcases completeUpload_cases s with he | ⟨_, he⟩ <;> rw [he] <;> exact ⟨le_refl _, rfl⟩
  | cancel =>
    rcases cancelUpload_cases s with he | he <;> rw [he] <;> exact ⟨le_refl _, rfl⟩
  | merge env hp =>
    have h := runScheduledMerge_counters s env
    exact ⟨h.1.ge, h.2.1⟩
  | cleanup h => exact ⟨le_refl _, rfl⟩

/-- The uploadedChunks counter is non-decreasing along any sequence of
operations. -/
theorem steps_uploadedChunks_mono {a b : SysState}
    (h : Relation.ReflTransGen Step a b) :
    a.session.uploadedChunks ≤ b.session.uploadedChunks := by
  induction h with
  | refl => exact le_refl _
  | tail _ hbc ih => exact le_trans ih (step_counters hbc).1

/-- Reachability invariant: whenever the session is completed, or a merge
callback is pending, the counter has reached totalChunks. -/
def Inv (s : SysState) : Prop :=
  (s.session.status = .completed →
      s.session.totalChunks ≤ s.session.uploadedChunks) ∧
    (s.mergePending = true →
      s.session.totalChunks ≤ s.session.uploadedChunks)

/-- Every operation preserves the completeness invariant. -/
theorem step_inv {s t : SysState} (hst : Step s t) (hs : Inv s) : Inv t := by
  cases hst with
  | submit i d h =>
    have hbm := uploadChunk_blob_mergePending s i d h
    rcases uploadChunk_session s i d h with he | ⟨_, _, hle, he⟩
    · constructor
      · intro hh
        rw [he] at hh ⊢
        exact hs.1 hh
      · intro hh
        rw [hbm.2] at hh
        rw [he]
        exact hs.2 hh
    · constructor
      · intro hh
        rw [he] at hh
        exact absurd hh (by simp)
      · intro hh
        rw [hbm.2] at hh
        have hb := hs.2 hh
        rw [he]
        show s.session.totalChunks ≤ i.toNat + 1
        omega
  | complete =>
    rcases completeUpload_cases s with he | ⟨heq, he⟩
    · rw [he]; exact hs
    · constructor
      · intro hh
        rw [he] at hh
        exact absurd hh (by simp)
      · intro hh
        rw [he]
        show s.session.totalChunks ≤ s.session.uploadedChunks
        omega
  | cancel =>
    rcases cancelUpload_cases s with he | he
    · rw [he]; exact hs
    · constructor
      · intro hh
        rw [he] at hh
        exact absurd hh (by simp)
      · intro hh
        rw [he] at hh ⊢
        exact hs.2 hh
  | merge env hp =>
    have h := runScheduledMerge_counters s env
    have hb := hs.2 hp
    exact ⟨fun _ => by omega, fun _ => by omega⟩
  | cleanup h =>
    exact ⟨fun hh => hs.1 hh, fun hh => hs.2 hh⟩

/-- The completeness invariant holds in every reachable state. -/
theorem reachable_inv {total : Nat} {s : SysState} (h : Reachable total s) : Inv s := by
  induction h with
  | refl =>
    exact ⟨(fun hh => by cases hh), (fun hh => by cases hh)⟩
  | tail _ hbc ih => exact step_inv hbc ih

/-- A successful chunk submission always leaves the counter strictly above
the submitted index. -/
theorem uploadChunk_ok_lt (st : SysState) (i : Int) (d : List Nat) (h : Int)
    (r : ChunkResult) (st₁ : SysState)
    (hsub : uploadChunk st i d h = (.ok r, st₁)) :
    i.toNat < st₁.session.uploadedChunks := by
  simp only [uploadChunk] at hsub
  split_ifs at hsub with h1 h2 h3 h4 h5 h6
  · exact absurd (congrArg Prod.fst hsub) (by simp)
  · exact absurd (congrArg Prod.fst hsub) (by simp)
  · exact absurd (congrArg Prod.fst hsub) (by simp)
  · exact absurd (congrArg Prod.fst hsub) (by simp)
  · injection hsub with hA hB
    rw [← hB]
    exact h5
  · injection hsub with hA hB
    rw [← hB]
    show i.toNat < i.toNat + 1
    omega
  · omega

/-- If the environment injects a failure at index k inside the range being
merged, the sequential read loop returns an error. -/
theorem mergeRead_error_of_failAt (staged : Nat → Option (List Nat)) (k : Nat) :
    ∀ n i, i ≤ k → k < i + n → ∃ j, mergeRead staged (some k) i n = .error j := by
  intro n
  induction n with
  | zero => intro i hik hki; omega
  | succ m ih =>
    intro i hik hki
    by_cases hk : k = i
    · exact ⟨i, by simp [mergeRead, hk]⟩
    · have hne : ¬ ((some k : Option Nat) = some i) := by simp; omega
      rcases hs : staged i with _ | b
      · exact ⟨i, by simp [mergeRead, hne, hs]⟩
      · obtain ⟨j, hj⟩ := ih (i + 1) (by omega) (by omega)
        exact ⟨j, by simp [mergeRead, hne, hs, hj]⟩

/-- When no failure is injected and every chunk in the range is staged,
the sequential read loop returns exactly the ordered concatenation of the
staged byte sequences. -/
theorem mergeRead_ok_concat (staged : Nat → Option (List Nat)) (C : Nat → List Nat) :
    ∀ n i, (∀ j, i ≤ j → j < i + n → staged j = some (C j)) →
      mergeRead staged none i n = .ok (concatFrom C i n) := by
  intro n
  induction n with
  | zero => intro i hall; rfl
  | succ m ih =>
    intro i hall
    have hi : staged i = some (C i) := hall i (le_refl i) (by omega)
    have hrest := ih (i + 1) (fun j hj1 hj2 => hall j (by omega) (by omega))
    simp [mergeRead, hi, hrest, concatFrom]

/-- Claim C1, counterexample: submitting indices 0 then 2 for a session
with totalChunks 3 makes uploadedChunks report 3 (full progress) even
though index 1 was never submitted, not 1 as the prefix-only claim
states. -/
theorem submit_out_of_order_reports_full_progress :
    ((uploadChunk ((uploadChunk (openState 3) 0 [170] 3).2) 2 [204] 3).2).session.uploadedChunks = 3 ∧
      ((uploadChunk ((uploadChunk (openState 3) 0 [170] 3).2) 2 [204] 3).2).session.totalChunks = 3 ∧
      ¬ ((uploadChunk ((uploadChunk (openState 3) 0 [170] 3).2) 2 [204] 3).2).session.uploadedChunks = 1 := by
  decide

/-- Claim C1, amended: the conditional update is skip-ahead, not
prefix-only — an accepted submission of chunkIndex i moves uploadedChunks
to max(current, i+1), so the counter reaches totalChunks as soon as the
highest index totalChunks-1 has been submitted, regardless of lower
indices. -/
theorem uploadChunk_advances_to_max (st : SysState) (i : Int) (d : List Nat) (h : Int)
    (hs1 : st.session.status ≠ .completed) (hs2 : st.session.status ≠ .cancelled)
    (h0 : 0 ≤ i) (hh : i < h) :
    ((uploadChunk st i d h).2).session.uploadedChunks =
      max st.session.uploadedChunks (i.toNat + 1) := by
  simp only [uploadChunk]
  split_ifs with h1 h2 h3 h4
  · exact absurd h1 (by omega)
  · exact absurd h2 (by omega)
  · show st.session.uploadedChunks = max st.session.uploadedChunks (i.toNat + 1)
    omega
  · show i.toNat + 1 = max st.session.uploadedChunks (i.toNat + 1)
    omega
  · omega

/-- Witness for uploadChunk_advances_to_max at a fresh session with
totalChunks 3 and submitted index 2. -/
theorem uploadChunk_advances_to_max_witness :
    ((openState 3).session.status ≠ Status.completed ∧
        (openState 3).session.status ≠ Status.cancelled ∧ (0 : Int) ≤ 2 ∧ (2 : Int) < 3) ∧
      ((uploadChunk (openState 3) 2 [1] 3).2).session.uploadedChunks =
        max (openState 3).session.uploadedChunks ((2 : Int).toNat + 1) :=
  ⟨⟨by decide, by decide, by decide, by decide⟩,
    uploadChunk_advances_to_max (openState 3) 2 [1] 3 (by decide) (by decide)
      (by decide) (by decide)⟩

/-- Claim C2 (code bug): after a fully successful merge has marked the
session completed, a cleanupChunks failure falls into the catch block of
mergeChunks, which overwrites the status with failed (and the rethrown
error makes the setImmediate handler bump retryCount), instead of leaving
the session completed as documented; the object itself stays durably
stored. -/
theorem cleanup_failure_overwrites_completed :
    ((completeUpload ((uploadChunk (openState 1) 0 [7] 1).2)).2).mergePending = true ∧
      (runScheduledMerge ((completeUpload ((uploadChunk (openState 1) 0 [7] 1).2)).2)
          (MergeEnv.mk false none true)).session.status = .failed ∧
      (runScheduledMerge ((completeUpload ((uploadChunk (openState 1) 0 [7] 1).2)).2)
          (MergeEnv.mk false none true)).blob = .stored [7] ∧
      Status.failed ≠ Status.completed := by
  decide

/-- Claim C3, counterexample: a submission whose header totalChunks (10)
exceeds the stored totalChunks (3) pushes uploadedChunks to 6, above the
stored totalChunks, because uploadChunk validates the index only against
the header and the conditional update bypasses the schema bound. -/
theorem header_mismatch_exceeds_totalChunks :
    ((uploadChunk (openState 3) 5 [1] 10).2).session.uploadedChunks = 6 ∧
      ((uploadChunk (openState 3) 5 [1] 10).2).session.totalChunks = 3 ∧
      ¬ ((uploadChunk (openState 3) 5 [1] 10).2).session.uploadedChunks ≤ 3 := by
  decide

/-- Claim C3, amended: uploadedChunks is monotonically non-decreasing
under every operation and totalChunks is immutable; the upper bound
uploadedChunks ≤ totalChunks is preserved by any submission whose header
totalChunks does not exceed the stored value (a larger header can break
it, as the counterexample shows). -/
theorem uploadedChunks_monotone_and_bounded :
    (∀ s t : SysState, Step s t →
        s.session.uploadedChunks ≤ t.session.uploadedChunks ∧
          t.session.totalChunks = s.session.totalChunks) ∧
      ∀ (st : SysState) (i : Int) (d : List Nat) (h : Int),
        h ≤ (st.session.totalChunks : Int) →
        st.session.uploadedChunks ≤ st.session.totalChunks →
        ((uploadChunk st i d h).2).session.uploadedChunks ≤ st.session.totalChunks := by
  constructor
  · exact fun s t hst => step_counters hst
  · intro st i d h hh hb
    rcases uploadChunk_session st i d h with he | ⟨h0, hlt, hle, he⟩ <;> rw [he]
    · exact hb
    · show i.toNat + 1 ≤ st.session.totalChunks
      omega

/-- Witness for uploadedChunks_monotone_and_bounded: a concrete submit
step for the monotonicity part, and a fresh 3-chunk session with header 1
for the bound part. -/
theorem uploadedChunks_monotone_and_bounded_witness :
    ((openState 1).session.uploadedChunks ≤
        ((uploadChunk (openState 1) 0 [1] 1).2).session.uploadedChunks) ∧
      ((1 : Int) ≤ ((openState 3).session.totalChunks : Int) ∧
        (openState 3).session.uploadedChunks ≤ (openState 3).session.totalChunks ∧
        ((uploadChunk (openState 3) 0 [1] 1).2).session.uploadedChunks ≤
          (openState 3).session.totalChunks) :=
  ⟨(uploadedChunks_monotone_and_bounded.1 (openState 1)
        ((uploadChunk (openState 1) 0 [1] 1).2) (Step.submit (openState 1) 0 [1] 1)).1,
    by decide, by decide,
    uploadedChunks_monotone_and_bounded.2 (openState 3) 0 [1] 1 (by decide) (by decide)⟩

/-- Claim C4 (code bug): cancellation is not terminal in the code — on a
cancelled session whose chunks were all submitted before cancellation
(and whose background cleanup has not yet run), completeUpload passes all
its checks and markAsProcessing (a findOneAndUpdate that bypasses the
transition table of the schema, whose entry for cancelled is the empty
list) moves the session from cancelled to processing and schedules a
merge. -/
theorem complete_moves_cancelled_to_processing :
    ((cancelUpload ((uploadChunk (openState 1) 0 [7] 1).2)).2).session.status = .cancelled ∧
      ((completeUpload ((cancelUpload ((uploadChunk (openState 1) 0 [7] 1).2)).2)).2).session.status = .processing ∧
      ((completeUpload ((cancelUpload ((uploadChunk (openState 1) 0 [7] 1).2)).2)).2).mergePending = true ∧
      Status.processing ≠ Status.cancelled := by
  decide

/-- Claim C5: when the merge fails while reading a chunk or writing to
the blob store (an injected failure at some index k inside the range),
the partial blob object is aborted so none remains readable, and the
session ends failed with an error message recorded and retryCount bumped
by exactly one (only the setImmediate handler increments it). -/
theorem merge_failure_aborts_and_fails_session (st : SysState) (env : MergeEnv) (k : Nat)
    (hs : st.session.status ≠ .completed) (hd : env.dirAccessFails = false)
    (hf : env.failAt = some k) (hk : k < st.session.totalChunks) :
    (runScheduledMerge st env).blob = .absent ∧
      (runScheduledMerge st env).session.status = .failed ∧
      ((runScheduledMerge st env).session.errorMessage).isSome = true ∧
      (runScheduledMerge st env).session.retryCount = st.session.retryCount + 1 := by
  obtain ⟨j, hj⟩ :=
    mergeRead_error_of_failAt st.staged k st.session.totalChunks 0 (by omega) (by omega)
  rw [← hf] at hj
  simp [runScheduledMerge, mergeChunks, hs, hd, hj]

/-- Witness for merge_failure_aborts_and_fails_session on a fresh
one-chunk session with a failure injected at index 0. -/
theorem merge_failure_aborts_and_fails_session_witness :
    ((openState 1).session.status ≠ Status.completed ∧
        (MergeEnv.mk false (some 0) false).dirAccessFails = false ∧
        (MergeEnv.mk false (some 0) false).failAt = some 0 ∧
        0 < (openState 1).session.totalChunks) ∧
      ((runScheduledMerge (openState 1) (MergeEnv.mk false (some 0) false)).blob = .absent ∧
        (runScheduledMerge (openState 1) (MergeEnv.mk false (some 0) false)).session.status = .failed ∧
        ((runScheduledMerge (openState 1) (MergeEnv.mk false (some 0) false)).session.errorMessage).isSome = true ∧
        (runScheduledMerge (openState 1) (MergeEnv.mk false (some 0) false)).session.retryCount =
          (openState 1).session.retryCount + 1) :=
  ⟨⟨by decide, rfl, rfl, by decide⟩,
    merge_failure_aborts_and_fails_session (openState 1) (MergeEnv.mk false (some 0) false) 0
      (by decide) rfl rfl (by decide)⟩

/-- Claim C6: a successful merge reads the staged chunks strictly in
index order 0..totalChunks-1 and finalizes a blob object whose bytes are
exactly the ordered concatenation of the chunk byte sequences, marking
the session completed with the blob reference set. -/
theorem merge_roundtrip_concatenation (st : SysState) (env : MergeEnv) (C : Nat → List Nat)
    (hs : st.session.status ≠ .completed) (hd : env.dirAccessFails = false)
    (hf : env.failAt = none) (hc : env.cleanupFails = false)
    (hall : ∀ j, j < st.session.totalChunks → st.staged j = some (C j)) :
    (runScheduledMerge st env).blob = .stored (concatFrom C 0 st.session.totalChunks) ∧
      (runScheduledMerge st env).session.status = .completed ∧
      (runScheduledMerge st env).session.blobRef = some 0 := by
  have hok := mergeRead_ok_concat st.staged C st.session.totalChunks 0
    (fun j hj1 hj2 => hall j (by omega))
  rw [← hf] at hok
  simp [runScheduledMerge, mergeChunks, hs, hd, hc, hok]

/-- Witness for merge_roundtrip_concatenation on a two-chunk session
holding bytes [7] and [8, 9]. -/
theorem merge_roundtrip_concatenation_witness :
    (((uploadChunk ((uploadChunk (openState 2) 0 [7] 2).2) 1 [8, 9] 2).2).session.status ≠ Status.completed ∧
        (∀ j, j < ((uploadChunk ((uploadChunk (openState 2) 0 [7] 2).2) 1 [8, 9] 2).2).session.totalChunks →
          ((uploadChunk ((uploadChunk (openState 2) 0 [7] 2).2) 1 [8, 9] 2).2).staged j =
            some (if j = 0 then [7] else [8, 9]))) ∧
      ((runScheduledMerge ((uploadChunk ((uploadChunk (openState 2) 0 [7] 2).2) 1 [8, 9] 2).2)
            (MergeEnv.mk false none false)).blob =
          .stored (concatFrom (fun j => if j = 0 then [7] else [8, 9]) 0
            ((uploadChunk ((uploadChunk (openState 2) 0 [7] 2).2) 1 [8, 9] 2).2).session.totalChunks) ∧
        (runScheduledMerge ((uploadChunk ((uploadChunk (openState 2) 0 [7] 2).2) 1 [8, 9] 2).2)
            (MergeEnv.mk false none false)).session.status = .completed ∧
        (runScheduledMerge ((uploadChunk ((uploadChunk (openState 2) 0 [7] 2).2) 1 [8, 9] 2).2)
            (MergeEnv.mk false none false)).session.blobRef = some 0) :=
  ⟨⟨by decide, by decide⟩,
    merge_roundtrip_concatenation ((uploadChunk ((uploadChunk (openState 2) 0 [7] 2).2) 1 [8, 9] 2).2)
      (MergeEnv.mk false none false) (fun j => if j = 0 then [7] else [8, 9])
      (by decide) rfl rfl rfl (by decide)⟩

/-- A session record already in completed status, used to exercise the
idempotent completion paths. -/
def completedExample : SysState :=
  { openState 1 with
      session := { (openState 1).session with status := .completed, uploadedChunks := 1 } }

/-- Claim C7: on a completed session, completeUpload returns the
idempotent already-processed result without touching the state or
scheduling a merge, and mergeChunks itself returns immediately without
writing anything. -/
theorem complete_idempotent_after_completed (st : SysState) (env : MergeEnv)
    (hs : st.session.status = .completed) :
    completeUpload st = (.ok ⟨"File already processed", .completed⟩, st) ∧
      mergeChunks st env = (st, false) := by
  constructor
  · unfold completeUpload
    rw [if_pos hs]
  · unfold mergeChunks
    rw [if_pos hs]

/-- Witness for complete_idempotent_after_completed. -/
theorem complete_idempotent_after_completed_witness :
    completedExample.session.status = Status.completed ∧
      (completeUpload completedExample =
          (.ok ⟨"File already processed", .completed⟩, completedExample) ∧
        mergeChunks completedExample (MergeEnv.mk false none false) = (completedExample, false)) :=
  ⟨by decide,
    complete_idempotent_after_completed completedExample (MergeEnv.mk false none false) (by decide)⟩

/-- Claim C8: in every reachable state whose counter is below totalChunks,
completeUpload fails with the incomplete-upload UploadError, the state is
untouched, and no merge is pending (so none is started and nothing is
written to the blob store). -/
theorem incomplete_complete_fails (total : Nat) (s : SysState)
    (hr : Reachable total s)
    (hlt : s.session.uploadedChunks < s.session.totalChunks) :
    (completeUpload s).1 =
        .error (.uploadError ("Incomplete upload: " ++
          toString s.session.uploadedChunks ++ "/" ++
          toString s.session.totalChunks ++ " chunks received")) ∧
      (completeUpload s).2 = s ∧ s.mergePending = false := by
  have hinv := reachable_inv hr
  have hnc : s.session.status ≠ .completed := fun hcc => by
    have := hinv.1 hcc
    omega
  have hne : s.session.uploadedChunks ≠ s.session.totalChunks := by omega
  have hmp : s.mergePending = false := by
    cases hmpc : s.mergePending with
    | false => rfl
    | true =>
      have := hinv.2 hmpc
      omega
  refine ⟨?_, ?_, hmp⟩ <;>
    · unfold completeUpload
      rw [if_neg hnc, if_pos hne]

/-- Witness for incomplete_complete_fails at the freshly opened one-chunk
session itself. -/
theorem incomplete_complete_fails_witness :
    (Reachable 1 (openState 1) ∧
        (openState 1).session.uploadedChunks < (openState 1).session.totalChunks) ∧
      ((completeUpload (openState 1)).1 =
          .error (.uploadError ("Incomplete upload: " ++
            toString (openState 1).session.uploadedChunks ++ "/" ++
            toString (openState 1).session.totalChunks ++ " chunks received")) ∧
        (completeUpload (openState 1)).2 = openState 1 ∧ (openState 1).mergePending = false) :=
  ⟨⟨Relation.ReflTransGen.refl, by decide⟩,
    incomplete_complete_fails 1 (openState 1) Relation.ReflTransGen.refl (by decide)⟩

/-- Claim C9, counterexample: index 0 is submitted successfully, the
session is then cancelled, and resubmitting the same index errors with
UploadError instead of succeeding, because the status checks run before
the already-uploaded early return. -/
theorem resubmit_after_cancel_errors :
    (uploadChunk (openState 1) 0 [7] 1).1 = .ok ⟨0, 1, 1⟩ ∧
      (uploadChunk ((cancelUpload ((uploadChunk (openState 1) 0 [7] 1).2)).2) 0 [7] 1).1 =
        .error (.uploadError "Upload has been cancelled") :=
  ⟨rfl, rfl⟩

/-- Claim C9, amended: resubmitting an already-successfully-submitted
chunk index is idempotent provided the session has not meanwhile reached
completed or cancelled status — the call hits the already-uploaded early
return, succeeds, reports the current counters and leaves the state
entirely unchanged. -/
theorem resubmit_idempotent_when_active (st : SysState) (i : Int) (d : List Nat) (h : Int)
    (r : ChunkResult) (st₁ s : SysState) (d₂ : List Nat) (h₂ : Int)
    (hsub : uploadChunk st i d h = (.ok r, st₁))
    (hsteps : Relation.ReflTransGen Step st₁ s)
    (hs1 : s.session.status ≠ .completed) (hs2 : s.session.status ≠ .cancelled)
    (h0 : 0 ≤ i) (hh : i < h₂) :
    uploadChunk s i d₂ h₂ =
      (.ok ⟨i.toNat, s.session.uploadedChunks, s.session.totalChunks⟩, s) := by
  have hlt : i.toNat < s.session.uploadedChunks :=
    lt_of_lt_of_le (uploadChunk_ok_lt st i d h r st₁ hsub) (steps_uploadedChunks_mono hsteps)
  simp only [uploadChunk]
  split_ifs with h1 h2
  · exact absurd h1 (by omega)
  · exact absurd h2 (by omega)
  · rfl

/-- Witness for resubmit_idempotent_when_active: submit index 0 on a
fresh two-chunk session, then immediately resubmit it with different
bytes. -/
theorem resubmit_idempotent_when_active_witness :
    (uploadChunk (openState 2) 0 [7] 2 =
        (.ok ⟨0, 1, 2⟩, (uploadChunk (openState 2) 0 [7] 2).2) ∧
      ((uploadChunk (openState 2) 0 [7] 2).2).session.status ≠ Status.completed ∧
      ((uploadChunk (openState 2) 0 [7] 2).2).session.status ≠ Status.cancelled ∧
      (0 : Int) ≤ 0 ∧ (0 : Int) < 2) ∧
      uploadChunk ((uploadChunk (openState 2) 0 [7] 2).2) 0 [9] 2 =
        (.ok ⟨(0 : Int).toNat, ((uploadChunk (openState 2) 0 [7] 2).2).session.uploadedChunks,
            ((uploadChunk (openState 2) 0 [7] 2).2).session.totalChunks⟩,
          (uploadChunk (openState 2) 0 [7] 2).2) :=
  ⟨⟨rfl, by decide, by decide, by decide, by decide⟩,
    resubmit_idempotent_when_active (openState 2) 0 [7] 2 ⟨0, 1, 2⟩
      ((uploadChunk (openState 2) 0 [7] 2).2) ((uploadChunk (openState 2) 0 [7] 2).2) [9] 2
      rfl Relation.ReflTransGen.refl (by decide) (by decide) (by decide) (by decide)⟩

/-- Claim C10: uploadChunk rejects only the terminal statuses completed
and cancelled — in any of the four statuses pending, uploading,
processing or failed a well-formed submission (0 ≤ chunkIndex < header
totalChunks) succeeds, and it still advances the counter whenever the
stored counter is at most the submitted index, in particular while a
merge is in flight (status processing). -/
theorem submit_accepted_unless_terminal (st : SysState) (i : Int) (d : List Nat) (h : Int)
    (hs : st.session.status = .pending ∨ st.session.status = .uploading ∨
      st.session.status = .processing ∨ st.session.status = .failed)
    (h0 : 0 ≤ i) (hh : i < h) :
    (∃ r st₂, uploadChunk st i d h = (.ok r, st₂)) ∧
      (st.session.uploadedChunks ≤ i.toNat →
        ((uploadChunk st i d h).2).session.uploadedChunks = i.toNat + 1) := by
  have hs1 : st.session.status ≠ .completed := by
    rcases hs with hx | hx | hx | hx <;> simp [hx]
  have hs2 : st.session.status ≠ .cancelled := by
    rcases hs with hx | hx | hx | hx <;> simp [hx]
  constructor
  · simp only [uploadChunk]
    split_ifs with h1 h2 h3 h4
    · exact absurd h1 (by omega)
    · exact absurd h2 (by omega)
    · exact ⟨_, _, rfl⟩
    · exact ⟨_, _, rfl⟩
    · exact ⟨_, _, rfl⟩
  · intro hle
    simp only [uploadChunk]
    split_ifs with h1 h2 h3
    · exact absurd h1 (by omega)
    · exact absurd h2 (by omega)
    · exact absurd h3 (by omega)
    · rfl

/-- Witness for submit_accepted_unless_terminal: a two-chunk session in
processing status (merge scheduled) still accepts a submission with
index 5 under header 10 and advances the counter to 6. -/
theorem submit_accepted_unless_terminal_witness :
    ((((completeUpload ((uploadChunk ((uploadChunk (openState 2) 0 [7] 2).2) 1 [8] 2).2)).2).session.status = Status.pending ∨
        ((completeUpload ((uploadChunk ((uploadChunk (openState 2) 0 [7] 2).2) 1 [8] 2).2)).2).session.status = Status.uploading ∨
        ((completeUpload ((uploadChunk ((uploadChunk (openState 2) 0 [7] 2).2) 1 [8] 2).2)).2).session.status = Status.processing ∨
        ((completeUpload ((uploadChunk ((uploadChunk (openState 2) 0 [7] 2).2) 1 [8] 2).2)).2).session.status = Status.failed) ∧
      (0 : Int) ≤ 5 ∧ (5 : Int) < 10) ∧
      ((∃ r st₂,
          uploadChunk ((completeUpload ((uploadChunk ((uploadChunk (openState 2) 0 [7] 2).2) 1 [8] 2).2)).2) 5 [1] 10 =
            (.ok r, st₂)) ∧
        (((completeUpload ((uploadChunk ((uploadChunk (openState 2) 0 [7] 2).2) 1 [8] 2).2)).2).session.uploadedChunks ≤ (5 : Int).toNat →
          ((uploadChunk ((completeUpload ((uploadChunk ((uploadChunk (openState 2) 0 [7] 2).2) 1 [8] 2).2)).2) 5 [1] 10).2).session.uploadedChunks =
            (5 : Int).toNat + 1)) :=
  ⟨⟨by decide, by decide, by decide⟩,
    submit_accepted_unless_terminal
      ((completeUpload ((uploadChunk ((uploadChunk (openState 2) 0 [7] 2).2) 1 [8] 2).2)).2)
      5 [1] 10 (by decide) (by decide) (by decide)⟩

end FileUploadModel
